import Mathlib

/-!
Shallow embedding of the BTF decoder, layout resolver and declaration
generator of `libbpf-cargo/src/btf/btf.rs`, together with theorems about
the properties its specification states.

Modelling conventions:
* Rust computations are embedded as values of `RRes α`: `ok` is a normal
  return, `err` a typed error (`bail!` / `ensure!` / `?`), `trap` a panic,
  assertion failure, out-of-bounds slice index, checked-arithmetic
  overflow, or undefined behaviour, and `fuelOut` marks that a
  fuel-indexed model of a possibly non-terminating loop ran out of fuel
  (a run that yields `fuelOut` for every fuel diverges).
* Fixed-width machine integers are modelled as `Nat` with explicit
  checked operations (`addU8`, `addU32`, `mulU32`) that `trap` on
  overflow, matching Rust's checked (debug) semantics; `usize` values
  stay unbounded `Nat` (64-bit; never close to overflow here).
* Strings read from the string table are modelled for the ASCII subset:
  a byte at or above 0x80 is rejected, which agrees with `str::to_str`
  on the ASCII-only tables used throughout this development.
-/

/-- Result of running a piece of the embedded Rust code. -/
inductive RRes (α : Type) where
  | ok : α → RRes α
  | err : String → RRes α
  | trap : RRes α
  | fuelOut : RRes α
deriving Repr, DecidableEq

namespace RRes

def bind {α β : Type} : RRes α → (α → RRes β) → RRes β
  | ok a, f => f a
  | err m, _ => err m
  | trap, _ => trap
  | fuelOut, _ => fuelOut

end RRes

instance : Monad RRes where
  pure := RRes.ok
  bind := RRes.bind

/-- Checked `u8` addition: Rust's `+` on `u8` traps on overflow. -/
def addU8 (a b : Nat) : RRes Nat :=
  if a + b < 256 then .ok (a + b) else .trap

/-- Checked `u32` addition. -/
def addU32 (a b : Nat) : RRes Nat :=
  if a + b < 4294967296 then .ok (a + b) else .trap

/-- Checked `u32` multiplication. -/
def mulU32 (a b : Nat) : RRes Nat :=
  if a * b < 4294967296 then .ok (a * b) else .trap

/-- Integer encodings of a BTF `Int` (`BtfIntEncoding` of the `btf`
module, fields as used by `btf.rs`). -/
inductive BtfIntEncoding where
  | none
  | signed
  | char
  | bool
deriving Repr, DecidableEq

/-- Forward-declaration kinds (`BtfFwdKind`). -/
inductive BtfFwdKind where
  | struct
  | union
deriving Repr, DecidableEq

/-- Linkage of a BTF variable (`BtfVarLinkage`). -/
inductive BtfVarLinkage where
  | static
  | globalAlloc
  | globalExtern
deriving Repr, DecidableEq

structure BtfInt where
  name : String
  bits : Nat
  offset : Nat
  encoding : BtfIntEncoding
deriving Repr, DecidableEq

structure BtfPtr where
  pointee_type : Nat
deriving Repr, DecidableEq

structure BtfArray where
  nelems : Nat
  index_type_id : Nat
  val_type_id : Nat
deriving Repr, DecidableEq

structure BtfMember where
  name : String
  type_id : Nat
  bit_size : Nat
  bit_offset : Nat
deriving Repr, DecidableEq

structure BtfComposite where
  name : String
  is_struct : Bool
  size : Nat
  members : List BtfMember
deriving Repr, DecidableEq

structure BtfEnumValue where
  name : String
  value : Int
deriving Repr, DecidableEq

structure BtfEnum where
  name : String
  size : Nat
  values : List BtfEnumValue
deriving Repr, DecidableEq

structure BtfEnum64Value where
  name : String
  value : Nat
deriving Repr, DecidableEq

structure BtfEnum64 where
  name : String
  size : Nat
  signed : Bool
  values : List BtfEnum64Value
deriving Repr, DecidableEq

structure BtfFwd where
  name : String
  kind : BtfFwdKind
deriving Repr, DecidableEq

structure BtfTypedef where
  name : String
  type_id : Nat
deriving Repr, DecidableEq

structure BtfVolatile where
  type_id : Nat
deriving Repr, DecidableEq

structure BtfConst where
  type_id : Nat
deriving Repr, DecidableEq

structure BtfRestrict where
  type_id : Nat
deriving Repr, DecidableEq

structure BtfFunc where
  name : String
  type_id : Nat
deriving Repr, DecidableEq

structure BtfFuncParam where
  name : String
  type_id : Nat
deriving Repr, DecidableEq

structure BtfFuncProto where
  ret_type_id : Nat
  params : List BtfFuncParam
deriving Repr, DecidableEq

structure BtfVar where
  name : String
  type_id : Nat
  linkage : BtfVarLinkage
deriving Repr, DecidableEq

structure BtfDatasecVar where
  type_id : Nat
  offset : Nat
  size : Nat
deriving Repr, DecidableEq

structure BtfDatasec where
  name : String
  size : Nat
  vars : List BtfDatasecVar
deriving Repr, DecidableEq

structure BtfFloat where
  name : String
  size : Nat
deriving Repr, DecidableEq

structure BtfDeclTag where
  name : String
  type_id : Nat
  component_idx : Int
deriving Repr, DecidableEq

structure BtfTypeTag where
  name : String
  type_id : Nat
deriving Repr, DecidableEq

/-- The closed variant of decoded BTF type nodes (`BtfType` of the `btf`
module, exactly the variants `btf.rs` consumes). -/
inductive BtfType where
  | void
  | int : BtfInt → BtfType
  | ptr : BtfPtr → BtfType
  | array : BtfArray → BtfType
  | struct : BtfComposite → BtfType
  | union : BtfComposite → BtfType
  | enum : BtfEnum → BtfType
  | enum64 : BtfEnum64 → BtfType
  | fwd : BtfFwd → BtfType
  | typedef : BtfTypedef → BtfType
  | volatile : BtfVolatile → BtfType
  | const : BtfConst → BtfType
  | restrict : BtfRestrict → BtfType
  | func : BtfFunc → BtfType
  | funcProto : BtfFuncProto → BtfType
  | var : BtfVar → BtfType
  | datasec : BtfDatasec → BtfType
  | float : BtfFloat → BtfType
  | declTag : BtfDeclTag → BtfType
  | typeTag : BtfTypeTag → BtfType
deriving Repr, DecidableEq

/-- The decoded type graph: `Btf::types` plus the pointer size obtained
from libbpf (`Btf::ptr_size`). -/
structure Btf where
  types : List BtfType
  ptr_size : Nat
deriving Repr, DecidableEq

/-- `Btf::type_by_id` (btf.rs:503-509): bounds-checked lookup. -/
def type_by_id (b : Btf) (type_id : Nat) : RRes BtfType :=
  if type_id < b.types.length then
    .ok (b.types.getD type_id .void)
  else
    .err ("Invalid type_id: " ++ toString type_id)

/-- `Btf::skip_mods_and_typedefs` (btf.rs:1157-1182), as a fuel-indexed
model of the source's unbounded `loop`. -/
def skip_mods_and_typedefs (b : Btf) : Nat → Nat → RRes Nat
  | 0, _ => .fuelOut
  | fuel + 1, type_id =>
    match type_by_id b type_id with
    | .ok (.volatile t) => skip_mods_and_typedefs b fuel t.type_id
    | .ok (.const t) => skip_mods_and_typedefs b fuel t.type_id
    | .ok (.restrict t) => skip_mods_and_typedefs b fuel t.type_id
    | .ok (.typedef t) => skip_mods_and_typedefs b fuel t.type_id
    | .ok (.typeTag t) => skip_mods_and_typedefs b fuel t.type_id
    | .ok _ => .ok type_id
    | .err m => .err m
    | .trap => .trap
    | .fuelOut => .fuelOut

/-- `Btf::size_of` (btf.rs:511-536). The `Int` arm performs the source's
`u8` addition `t.bits + 7`; the `Array` arm the source's `u32` product. -/
def size_of (b : Btf) : Nat → Nat → RRes Nat
  | 0, _ => .fuelOut
  | fuel + 1, type_id =>
    match skip_mods_and_typedefs b (fuel + 1) type_id with
    | .ok sid =>
      match type_by_id b sid with
      | .ok (.int t) => (addU8 t.bits 7).bind fun s => .ok (s / 8)
      | .ok (.ptr _) => .ok b.ptr_size
      | .ok (.array t) => (size_of b fuel t.val_type_id).bind fun s => mulU32 t.nelems s
      | .ok (.struct t) => .ok t.size
      | .ok (.union t) => .ok t.size
      | .ok (.enum t) => .ok t.size
      | .ok (.enum64 t) => .ok t.size
      | .ok (.var t) => size_of b fuel t.type_id
      | .ok (.datasec t) => .ok t.size
      | .ok (.float t) => .ok t.size
      | .ok _ => .err ("Cannot get size of type_id: " ++ toString sid)
      | .err m => .err m
      | .trap => .trap
      | .fuelOut => .fuelOut
    | .err m => .err m
    | .trap => .trap
    | .fuelOut => .fuelOut

/-- The member fold of `Btf::align_of`'s Struct/Union arm
(btf.rs:545-552): `align = max(align, align_of(m.type_id)?)`. -/
def fold_align (f : Nat → RRes Nat) : List BtfMember → Nat → RRes Nat
  | [], align => .ok align
  | m :: ms, align =>
    match f m.type_id with
    | .ok a => fold_align f ms (max align a)
    | .err e => .err e
    | .trap => .trap
    | .fuelOut => .fuelOut

/-- `Btf::align_of` (btf.rs:538-569). -/
def align_of (b : Btf) : Nat → Nat → RRes Nat
  | 0, _ => .fuelOut
  | fuel + 1, type_id =>
    match skip_mods_and_typedefs b (fuel + 1) type_id with
    | .ok sid =>
      match type_by_id b sid with
      | .ok (.int t) => (addU8 t.bits 7).bind fun s => .ok (min b.ptr_size (s / 8))
      | .ok (.ptr _) => .ok b.ptr_size
      | .ok (.array t) => align_of b fuel t.val_type_id
      | .ok (.struct t) => fold_align (align_of b fuel) t.members 1
      | .ok (.union t) => fold_align (align_of b fuel) t.members 1
      | .ok (.enum t) => .ok (min b.ptr_size t.size)
      | .ok (.enum64 t) => .ok (min b.ptr_size t.size)
      | .ok (.var t) => align_of b fuel t.type_id
      | .ok (.datasec t) => .ok t.size
      | .ok (.float t) => .ok (min b.ptr_size t.size)
      | .ok _ => .err ("Cannot get alignment of type_id: " ++ toString sid)
      | .err m => .err m
      | .trap => .trap
      | .fuelOut => .fuelOut
    | .err m => .err m
    | .trap => .trap
    | .fuelOut => .fuelOut

/-- The member scan of `Btf::is_struct_packed` (btf.rs:709-720): stop at
the first non-bitfield member whose bit offset is not a multiple of its
alignment times 8 (`&&` short-circuits, so `align * 8` is evaluated only
for members with `bit_size == 0`). -/
def packed_scan (f : Nat → RRes Nat) : List BtfMember → RRes Bool
  | [] => .ok false
  | m :: ms =>
    match f m.type_id with
    | .ok a =>
      if a = 0 then .err ("Failed to get alignment of m.type_id: " ++ toString m.type_id)
      else if m.bit_size = 0 then
        (mulU32 a 8).bind fun a8 =>
          if m.bit_offset % a8 ≠ 0 then .ok true else packed_scan f ms
      else packed_scan f ms
    | .err e => .err e
    | .trap => .trap
    | .fuelOut => .fuelOut

/-- `Btf::is_struct_packed` (btf.rs:691-725). -/
def is_struct_packed (b : Btf) (fuel : Nat) (struct_type_id : Nat) (t : BtfComposite) : RRes Bool :=
  if !t.is_struct then .ok false
  else
    match align_of b fuel struct_type_id with
    | .ok align =>
      if align = 0 then
        .err ("Failed to get alignment of struct_type_id: " ++ toString struct_type_id)
      else if t.size % align ≠ 0 then .ok true
      else packed_scan (align_of b fuel) t.members
    | .err m => .err m
    | .trap => .trap
    | .fuelOut => .fuelOut

/-- `Btf::required_padding` (btf.rs:730-766). `current_offset` and
`required_offset` are `usize` (modelled as unbounded `Nat`). -/
def required_padding (b : Btf) (fuel : Nat) (current_offset required_offset : Nat)
    (type_id : Nat) (packed : Bool) : RRes Nat :=
  if ¬ current_offset ≤ required_offset then
    .err "Current offset ahead of required offset"
  else
    let alignR : RRes Nat :=
      if packed then .ok 1
      else
        match align_of b fuel type_id with
        | .ok a =>
          if a = 0 then .err ("Failed to get alignment of type_id: " ++ toString type_id)
          else .ok (if a > 4 then 4 else a)
        | .err m => .err m
        | .trap => .trap
        | .fuelOut => .fuelOut
    alignR.bind fun align =>
      let aligned_offset := (current_offset + align - 1) / align * align
      if aligned_offset = required_offset then .ok 0
      else .ok (required_offset - current_offset)

/-- `get_vlen` (btf.rs:21-23): `info & 0xffff`. -/
def get_vlen (info : Nat) : Nat := info % 65536

/-- `get_kind_flag` (btf.rs:25-27): `(info >> 31) == 1`. -/
def get_kind_flag (info : Nat) : Bool := info / 2 ^ 31 = 1

/-- `get_kind` (btf.rs:29-31): `(info >> 24) & 0x1f`. -/
def get_kind (info : Nat) : Nat := info / 2 ^ 24 % 32

/-- The BTF kind tags (`BtfKind` of the `btf` module). -/
inductive BtfKind where
  | void
  | int
  | ptr
  | array
  | struct
  | union
  | enum
  | fwd
  | typedef
  | volatile
  | const
  | restrict
  | func
  | funcProto
  | var
  | datasec
  | float
  | declTag
  | typeTag
  | enum64
deriving Repr, DecidableEq

/-- Modelled from the spec: `BtfKind::try_from` of the `btf` module (not
under the sources); §4.1 says an unknown kind tag fails with a format
error, and the numbering is the BTF format's fixed kind numbering. -/
def btf_kind_from (n : Nat) : RRes BtfKind :=
  match n with
  | 0 => .ok .void
  | 1 => .ok .int
  | 2 => .ok .ptr
  | 3 => .ok .array
  | 4 => .ok .struct
  | 5 => .ok .union
  | 6 => .ok .enum
  | 7 => .ok .fwd
  | 8 => .ok .typedef
  | 9 => .ok .volatile
  | 10 => .ok .const
  | 11 => .ok .restrict
  | 12 => .ok .func
  | 13 => .ok .funcProto
  | 14 => .ok .var
  | 15 => .ok .datasec
  | 16 => .ok .float
  | 17 => .ok .declTag
  | 18 => .ok .typeTag
  | 19 => .ok .enum64
  | _ => .err ("Unknown BtfKind: " ++ toString n)

/-- Modelled from the spec: `BtfIntEncoding::try_from` of the `btf`
module (not under the sources); the tags are the BTF format's integer
encoding values. -/
def btf_int_encoding_from (n : Nat) : RRes BtfIntEncoding :=
  match n with
  | 0 => .ok .none
  | 1 => .ok .signed
  | 2 => .ok .char
  | 4 => .ok .bool
  | _ => .err ("Unknown BtfIntEncoding: " ++ toString n)

/-- Modelled from the spec: `BtfVarLinkage::try_from` of the `btf` module
(not under the sources); §4.4 says static-linkage vars are skipped, and
the tags are the BTF format's linkage values (0 = static). -/
def btf_var_linkage_from (n : Nat) : RRes BtfVarLinkage :=
  match n with
  | 0 => .ok .static
  | 1 => .ok .globalAlloc
  | 2 => .ok .globalExtern
  | _ => .err ("Unknown BtfVarLinkage: " ++ toString n)

/-- A little-endian `u32` read at `off`, with the bounds check `pread`
performs (a short buffer is a typed scroll error). -/
def read_u32 (data : List Nat) (off : Nat) : RRes Nat :=
  if off + 4 ≤ data.length then
    .ok (data.getD off 0 + 256 * data.getD (off + 1) 0 + 65536 * data.getD (off + 2) 0 +
      16777216 * data.getD (off + 3) 0)
  else
    .err "pread: buffer too short"

/-- A `u32` reinterpreted as an `i32` (two's complement). -/
def as_i32 (n : Nat) : Int :=
  if n < 2 ^ 31 then (n : Int) else (n : Int) - 2 ^ 32

/-- The common record header `btf_type` (c_types: three `u32`s:
`name_off`, `info`, `type_id`). -/
structure RawBtfType where
  name_off : Nat
  info : Nat
  type_id : Nat
deriving Repr, DecidableEq

/-- `data.pread::<btf_type>(0)`. -/
def pread_btf_type (data : List Nat) : RRes RawBtfType := do
  let name_off ← read_u32 data 0
  let info ← read_u32 data 4
  let type_id ← read_u32 data 8
  pure ⟨name_off, info, type_id⟩

/-- The bytes of the string-table entry at `off` up to its nul byte;
`none` when no nul byte lies within the table. -/
def take_nul : List Nat → Option (List Nat)
  | [] => Option.none
  | c :: rest => if c = 0 then Option.some [] else (take_nul rest).map (c :: ·)

/-- `BtfLoader::get_btf_str` (btf.rs:391-394). `string_table[offset]`
panics when `offset` is out of bounds, and `CStr::from_ptr` keeps reading
past the end of the table when no nul byte terminates it (undefined
behaviour); both are modelled as `trap`. Validity of the bytes is
modelled for the ASCII subset. -/
def get_btf_str (string_table : List Nat) (offset : Nat) : RRes String :=
  if offset < string_table.length then
    match take_nul (string_table.drop offset) with
    | Option.some bs =>
      if bs.all (· < 128) then .ok (String.mk (bs.map Char.ofNat))
      else .err "btf string is not valid utf-8"
    | Option.none => .trap
  else .trap

/-- `BtfLoader::load_int` (btf.rs:112-127). -/
def load_int (string_table : List Nat) (t : RawBtfType) (extra : List Nat) : RRes BtfType := do
  let info ← read_u32 extra 0
  let enc := info / 2 ^ 24 % 16
  let off := info / 2 ^ 16 % 256
  let bits := info % 256
  let name ← get_btf_str string_table t.name_off
  let encoding ← btf_int_encoding_from enc
  pure (.int ⟨name, bits, off, encoding⟩)

/-- `BtfLoader::load_float` (btf.rs:129-134). -/
def load_float (string_table : List Nat) (t : RawBtfType) : RRes BtfType := do
  let name ← get_btf_str string_table t.name_off
  pure (.float ⟨name, t.type_id⟩)

/-- `BtfLoader::load_array` (btf.rs:136-143): `btf_array` is three
`u32`s `nelems`, `idx_type_id`, `val_type_id`. -/
def load_array (extra : List Nat) : RRes BtfType := do
  let nelems ← read_u32 extra 0
  let idx_type_id ← read_u32 extra 4
  let val_type_id ← read_u32 extra 8
  pure (.array ⟨nelems, idx_type_id, val_type_id⟩)

/-- `BtfLoader::load_members` (btf.rs:187-209): `btf_member` is three
`u32`s `name_off`, `type_id`, `offset`. -/
def load_members (string_table : List Nat) (t : RawBtfType) (extra : List Nat) :
    Nat → Nat → List BtfMember → RRes (List BtfMember)
  | 0, _, res => .ok res
  | n + 1, off, res => do
    let name_off ← read_u32 extra off
    let type_id ← read_u32 extra (off + 4)
    let moffset ← read_u32 extra (off + 8)
    let bits := get_kind_flag t.info
    let name ← get_btf_str string_table name_off
    let m : BtfMember :=
      ⟨name, type_id, if bits then moffset / 2 ^ 24 else 0,
        if bits then moffset % 2 ^ 24 else moffset⟩
    load_members string_table t extra n (off + 12) (res ++ [m])

/-- The anonymous-name synthesis shared by struct/union/enum/enum64
loaders (btf.rs:151-157): `ANON_PREFIX` plus the incremented counter. -/
def anon_name (anon_count : Nat) (name : String) : String × Nat :=
  if name = "" then ("__anon_" ++ toString (anon_count + 1), anon_count + 1)
  else (name, anon_count)

/-- `BtfLoader::load_struct` (btf.rs:145-164). -/
def load_struct (string_table : List Nat) (t : RawBtfType) (extra : List Nat)
    (anon_count : Nat) : RRes (BtfType × Nat) := do
  let raw_name ← get_btf_str string_table t.name_off
  let (name, anon') := anon_name anon_count raw_name
  let members ← load_members string_table t extra (get_vlen t.info) 0 []
  pure (.struct ⟨name, true, t.type_id, members⟩, anon')

/-- `BtfLoader::load_union` (btf.rs:166-185). -/
def load_union (string_table : List Nat) (t : RawBtfType) (extra : List Nat)
    (anon_count : Nat) : RRes (BtfType × Nat) := do
  let raw_name ← get_btf_str string_table t.name_off
  let (name, anon') := anon_name anon_count raw_name
  let members ← load_members string_table t extra (get_vlen t.info) 0 []
  pure (.union ⟨name, false, t.type_id, members⟩, anon')

/-- The value loop of `BtfLoader::load_enum` (btf.rs:225-235):
`btf_enum` is a `u32` `name_off` and an `i32` `val`. -/
def load_enum_vals (string_table : List Nat) (extra : List Nat) :
    Nat → Nat → List BtfEnumValue → RRes (List BtfEnumValue)
  | 0, _, vals => .ok vals
  | n + 1, off, vals => do
    let name_off ← read_u32 extra off
    let v ← read_u32 extra (off + 4)
    let name ← get_btf_str string_table name_off
    load_enum_vals string_table extra n (off + 8) (vals ++ [⟨name, as_i32 v⟩])

/-- `BtfLoader::load_enum` (btf.rs:211-242). -/
def load_enum (string_table : List Nat) (t : RawBtfType) (extra : List Nat)
    (anon_count : Nat) : RRes (BtfType × Nat) := do
  let raw_name ← get_btf_str string_table t.name_off
  let (name, anon') := anon_name anon_count raw_name
  let vals ← load_enum_vals string_table extra (get_vlen t.info) 0 []
  pure (.enum ⟨name, t.type_id, vals⟩, anon')

/-- The value loop of `BtfLoader::load_enum64` (btf.rs:258-268):
`btf_enum64` is `u32`s `name_off`, `val_lo32`, `val_hi32`. -/
def load_enum64_vals (string_table : List Nat) (extra : List Nat) :
    Nat → Nat → List BtfEnum64Value → RRes (List BtfEnum64Value)
  | 0, _, vals => .ok vals
  | n + 1, off, vals => do
    let name_off ← read_u32 extra off
    let lo ← read_u32 extra (off + 4)
    let hi ← read_u32 extra (off + 8)
    let name ← get_btf_str string_table name_off
    load_enum64_vals string_table extra n (off + 12) (vals ++ [⟨name, hi * 2 ^ 32 + lo⟩])

/-- `BtfLoader::load_enum64` (btf.rs:244-276). -/
def load_enum64 (string_table : List Nat) (t : RawBtfType) (extra : List Nat)
    (anon_count : Nat) : RRes (BtfType × Nat) := do
  let raw_name ← get_btf_str string_table t.name_off
  let (name, anon') := anon_name anon_count raw_name
  let vals ← load_enum64_vals string_table extra (get_vlen t.info) 0 []
  pure (.enum64 ⟨name, t.type_id, get_kind_flag t.info, vals⟩, anon')

/-- `BtfLoader::load_fwd` (btf.rs:278-287). -/
def load_fwd (string_table : List Nat) (t : RawBtfType) : RRes BtfType := do
  let name ← get_btf_str string_table t.name_off
  pure (.fwd ⟨name, if get_kind_flag t.info then .union else .struct⟩)

/-- The parameter loop of `BtfLoader::load_func_proto` (btf.rs:294-305):
`btf_param` is `u32`s `name_off`, `type_id`. -/
def load_params (string_table : List Nat) (extra : List Nat) :
    Nat → Nat → List BtfFuncParam → RRes (List BtfFuncParam)
  | 0, _, ps => .ok ps
  | n + 1, off, ps => do
    let name_off ← read_u32 extra off
    let type_id ← read_u32 extra (off + 4)
    let name ← get_btf_str string_table name_off
    load_params string_table extra n (off + 8) (ps ++ [⟨name, type_id⟩])

/-- `BtfLoader::load_func_proto` (btf.rs:289-311). -/
def load_func_proto (string_table : List Nat) (t : RawBtfType) (extra : List Nat) :
    RRes BtfType := do
  let params ← load_params string_table extra (get_vlen t.info) 0 []
  pure (.funcProto ⟨t.type_id, params⟩)

/-- `BtfLoader::load_var` (btf.rs:313-324). -/
def load_var (string_table : List Nat) (t : RawBtfType) (extra : List Nat) : RRes BtfType := do
  let kind ← read_u32 extra 0
  let name ← get_btf_str string_table t.name_off
  let linkage ← btf_var_linkage_from kind
  pure (.var ⟨name, t.type_id, linkage⟩)

/-- The var loop of `BtfLoader::load_datasec` (btf.rs:334-343):
`btf_datasec_var` is `u32`s `type_id`, `offset`, `size`. -/
def load_datasec_vars (extra : List Nat) :
    Nat → Nat → List BtfDatasecVar → RRes (List BtfDatasecVar)
  | 0, _, vs => .ok vs
  | n + 1, off, vs => do
    let type_id ← read_u32 extra off
    let voffset ← read_u32 extra (off + 4)
    let vsize ← read_u32 extra (off + 8)
    load_datasec_vars extra n (off + 12) (vs ++ [⟨type_id, voffset, vsize⟩])

/-- `BtfLoader::load_datasec` (btf.rs:326-350). -/
def load_datasec (string_table : List Nat) (t : RawBtfType) (extra : List Nat) :
    RRes BtfType := do
  let vars ← load_datasec_vars extra (get_vlen t.info) 0 []
  let name ← get_btf_str string_table t.name_off
  pure (.datasec ⟨name, t.type_id, vars⟩)

/-- `BtfLoader::load_decl_tag` (btf.rs:352-363): `btf_decl_tag` is one
`i32` `component_idx`. -/
def load_decl_tag (string_table : List Nat) (t : RawBtfType) (extra : List Nat) :
    RRes BtfType := do
  let component_idx ← read_u32 extra 0
  let name ← get_btf_str string_table t.name_off
  pure (.declTag ⟨name, t.type_id, as_i32 component_idx⟩)

/-- `BtfLoader::load_type` (btf.rs:69-110), threading the anonymous-type
counter (`&mut self`). -/
def load_type (string_table : List Nat) (data : List Nat) (anon_count : Nat) :
    RRes (BtfType × Nat) := do
  let t ← pread_btf_type data
  let extra := data.drop 12
  let kind := get_kind t.info
  match ← btf_kind_from kind with
  | .void => .err "Cannot load Void type"
  | .int => (load_int string_table t extra).bind fun ty => pure (ty, anon_count)
  | .float => (load_float string_table t).bind fun ty => pure (ty, anon_count)
  | .ptr => pure (.ptr ⟨t.type_id⟩, anon_count)
  | .array => (load_array extra).bind fun ty => pure (ty, anon_count)
  | .struct => load_struct string_table t extra anon_count
  | .union => load_union string_table t extra anon_count
  | .enum => load_enum string_table t extra anon_count
  | .enum64 => load_enum64 string_table t extra anon_count
  | .fwd => (load_fwd string_table t).bind fun ty => pure (ty, anon_count)
  | .typedef => do
    let name ← get_btf_str string_table t.name_off
    pure (.typedef ⟨name, t.type_id⟩, anon_count)
  | .volatile => pure (.volatile ⟨t.type_id⟩, anon_count)
  | .const => pure (.const ⟨t.type_id⟩, anon_count)
  | .restrict => pure (.restrict ⟨t.type_id⟩, anon_count)
  | .func => do
    let name ← get_btf_str string_table t.name_off
    pure (.func ⟨name, t.type_id⟩, anon_count)
  | .funcProto => (load_func_proto string_table t extra).bind fun ty => pure (ty, anon_count)
  | .var => (load_var string_table t extra).bind fun ty => pure (ty, anon_count)
  | .datasec => (load_datasec string_table t extra).bind fun ty => pure (ty, anon_count)
  | .declTag => (load_decl_tag string_table t extra).bind fun ty => pure (ty, anon_count)
  | .typeTag => do
    let name ← get_btf_str string_table t.name_off
    pure (.typeTag ⟨name, t.type_id⟩, anon_count)

/-- `BtfLoader::type_size` (btf.rs:365-389). -/
def type_size (t : BtfType) : Nat :=
  match t with
  | .void => 0
  | .ptr _ => 12
  | .fwd _ => 12
  | .typedef _ => 12
  | .volatile _ => 12
  | .const _ => 12
  | .restrict _ => 12
  | .func _ => 12
  | .float _ => 12
  | .typeTag _ => 12
  | .int _ => 16
  | .var _ => 16
  | .array _ => 24
  | .struct t => 12 + t.members.length * 12
  | .union t => 12 + t.members.length * 12
  | .enum t => 12 + t.values.length * 8
  | .enum64 t => 12 + t.values.length * 12
  | .funcProto t => 12 + t.params.length * 8
  | .datasec t => 12 + t.vars.length * 12
  | .declTag _ => 16

/-- The scan loop of `BtfLoader::load_now` (btf.rs:60-64), fuel-indexed
(every record is at least 12 bytes, so `type_data.length + 1` fuel always
suffices for the concrete runs considered here). -/
def load_loop (string_table type_data : List Nat) :
    Nat → Nat → Nat → List BtfType → RRes (List BtfType)
  | 0, _, _, _ => .fuelOut
  | fuel + 1, off, anon_count, types =>
    if off < type_data.length then
      match load_type string_table (type_data.drop off) anon_count with
      | .ok (t, anon') => load_loop string_table type_data fuel (off + type_size t) anon' (types ++ [t])
      | .err m => .err m
      | .trap => .trap
      | .fuelOut => .fuelOut
    else .ok types

/-- `BtfLoader::load` / `load_now` (btf.rs:43-67): type ID 0 is reserved
for `Void`. -/
def load (type_data string_table : List Nat) : RRes (List BtfType) :=
  load_loop string_table type_data (type_data.length + 1) 0 0 [.void]

/-- Modelled from the spec: the `Display` form of a type node used inside
`bail!("Invalid type: {}", ty)` messages lives in the `btf` module (not
under the sources); only the message text depends on it, so the kind name
stands in. -/
def kind_str (t : BtfType) : String :=
  match t with
  | .void => "void"
  | .int _ => "int"
  | .ptr _ => "ptr"
  | .array _ => "array"
  | .struct _ => "struct"
  | .union _ => "union"
  | .enum _ => "enum"
  | .enum64 _ => "enum64"
  | .fwd _ => "fwd"
  | .typedef _ => "typedef"
  | .volatile _ => "volatile"
  | .const _ => "const"
  | .restrict _ => "restrict"
  | .func _ => "func"
  | .funcProto _ => "func_proto"
  | .var _ => "var"
  | .datasec _ => "datasec"
  | .float _ => "float"
  | .declTag _ => "decl_tag"
  | .typeTag _ => "type_tag"

/-- The integer width match of `Btf::type_declaration` (btf.rs:583-590). -/
def int_width_str (nbytes : Nat) : RRes String :=
  match nbytes with
  | 1 => .ok "8"
  | 2 => .ok "16"
  | 4 => .ok "32"
  | 8 => .ok "64"
  | 16 => .ok "128"
  | _ => .err "Invalid integer width"

/-- `Btf::type_declaration` (btf.rs:576-645). The `Bool` encoding arm
carries the source's `assert!(t.bits as usize == size_of::<bool>() * 8)`,
which traps unless `bits == 8`. -/
def type_declaration (b : Btf) : Nat → Nat → RRes String
  | 0, _ => .fuelOut
  | fuel + 1, type_id =>
    match skip_mods_and_typedefs b (fuel + 1) type_id with
    | .ok sid =>
      match type_by_id b sid with
      | .ok .void => .ok "std::ffi::c_void"
      | .ok (.int t) =>
        (addU8 t.bits 7).bind fun s =>
        (int_width_str (s / 8)).bind fun width =>
        match t.encoding with
        | .signed => .ok ("i" ++ width)
        | .bool => if t.bits = 8 then .ok "bool" else .trap
        | .char => .ok ("u" ++ width)
        | .none => .ok ("u" ++ width)
      | .ok (.float t) =>
        match t.size with
        | 2 => .err "Unsupported float width"
        | 4 => .ok "f32"
        | 8 => .ok "f64"
        | 12 => .err "Unsupported float width"
        | 16 => .err "Unsupported float width"
        | _ => .err "Invalid float width"
      | .ok (.ptr t) => (type_declaration b fuel t.pointee_type).bind fun p => .ok ("*mut " ++ p)
      | .ok (.array t) =>
        (type_declaration b fuel t.val_type_id).bind fun v =>
          .ok ("[" ++ v ++ "; " ++ toString t.nelems ++ "]")
      | .ok (.struct t) => .ok t.name
      | .ok (.union t) => .ok t.name
      | .ok (.enum t) => .ok t.name
      | .ok (.enum64 t) => .ok t.name
      | .ok (.func _) => .ok "std::ffi::c_void"
      | .ok (.var t) => type_declaration b fuel t.type_id
      | .ok ty => .err ("Invalid type: " ++ kind_str ty)
      | .err m => .err m
      | .trap => .trap
      | .fuelOut => .fuelOut
    | .err m => .err m
    | .trap => .trap
    | .fuelOut => .fuelOut

/-- `Btf::type_default` (btf.rs:655-689). -/
def type_default (b : Btf) : Nat → Nat → RRes String
  | 0, _ => .fuelOut
  | fuel + 1, type_id =>
    match skip_mods_and_typedefs b (fuel + 1) type_id with
    | .ok sid =>
      match type_by_id b sid with
      | .ok .void => .ok "std::ffi::c_void::default()"
      | .ok (.int _) => (type_declaration b fuel sid).bind fun d => .ok (d ++ "::default()")
      | .ok (.float _) => (type_declaration b fuel sid).bind fun d => .ok (d ++ "::default()")
      | .ok (.ptr _) => .ok "std::ptr::null_mut()"
      | .ok (.array t) =>
        match type_default b fuel t.val_type_id with
        | .ok d => .ok ("[" ++ d ++ "; " ++ toString t.nelems ++ "]")
        | .err e => .err ("in " ++ kind_str (.array t) ++ ": " ++ e)
        | .trap => .trap
        | .fuelOut => .fuelOut
      | .ok (.struct t) => .ok (t.name ++ "::default()")
      | .ok (.union t) => .ok (t.name ++ "::default()")
      | .ok (.enum t) => .ok (t.name ++ "::default()")
      | .ok (.enum64 t) => .ok (t.name ++ "::default()")
      | .ok (.var t) => (type_declaration b fuel t.type_id).bind fun d => .ok (d ++ "::default()")
      | .ok ty => .err ("Invalid type: " ++ kind_str ty)
      | .err m => .err m
      | .trap => .trap
      | .fuelOut => .fuelOut
    | .err m => .err m
    | .trap => .trap
    | .fuelOut => .fuelOut

/-- The `next_type` closure of `Btf::type_definition` (btf.rs:772-797),
fuel-indexed: the source's `loop` chases Ptr/Array/modifier/Typedef/tag
indirection until a composite (worklist item) or a leaf. -/
def next_type (b : Btf) : Nat → Nat → RRes (Option Nat)
  | 0, _ => .fuelOut
  | fuel + 1, id =>
    match type_by_id b id with
    | .ok (.struct _) => .ok (Option.some id)
    | .ok (.union _) => .ok (Option.some id)
    | .ok (.enum _) => .ok (Option.some id)
    | .ok (.enum64 _) => .ok (Option.some id)
    | .ok (.datasec _) => .ok (Option.some id)
    | .ok (.ptr t) => next_type b fuel t.pointee_type
    | .ok (.array t) => next_type b fuel t.val_type_id
    | .ok (.volatile t) => next_type b fuel t.type_id
    | .ok (.const t) => next_type b fuel t.type_id
    | .ok (.restrict t) => next_type b fuel t.type_id
    | .ok (.typedef t) => next_type b fuel t.type_id
    | .ok (.declTag t) => next_type b fuel t.type_id
    | .ok (.typeTag t) => next_type b fuel t.type_id
    | .ok _ => .ok Option.none
    | .err m => .err m
    | .trap => .trap
    | .fuelOut => .fuelOut

/-- The `is_terminal` closure of `Btf::type_definition` (btf.rs:799-822). -/
def is_terminal (b : Btf) (id : Nat) : RRes Bool :=
  match type_by_id b id with
  | .ok (.struct _) => .ok false
  | .ok (.union _) => .ok false
  | .ok (.enum _) => .ok false
  | .ok (.enum64 _) => .ok false
  | .ok (.datasec _) => .ok false
  | .ok _ => .ok true
  | .err m => .err m
  | .trap => .trap
  | .fuelOut => .fuelOut

/-- State of the member loop of `Btf::type_definition`'s Struct/Union arm
(btf.rs:851-858): the field lines, the `impl Default` lines, the
`gen_impl_default` flag, the pushed dependent types, and the running byte
offset. -/
structure WalkSt where
  agg_content : List String
  impl_default : List String
  gen_impl_default : Bool
  deps : List Nat
  offset : Nat
deriving Repr, DecidableEq

/-- Appends each line plus a newline (`writeln!`). -/
def put_lines (s : String) (ls : List String) : String :=
  ls.foldl (fun acc l => acc ++ l ++ "\x0a") s

/-- The `gen_impl_default` update of the member loop (btf.rs:888-892):
a member whose unwrapped type is an array longer than 32 forces an
explicit `impl Default`. -/
def array_gen_flag (b : Btf) (field_ty_id : Nat) (gen_impl_default : Bool) : RRes Bool :=
  match type_by_id b field_ty_id with
  | .ok (.array ft) => .ok (gen_impl_default || decide (32 < ft.nelems))
  | .ok _ => .ok gen_impl_default
  | .err m => .err m
  | .trap => .trap
  | .fuelOut => .fuelOut

/-- The Default-expression step of the member loop (btf.rs:895-908): a
failed `type_default` is swallowed unless an `impl Default` must be
generated or the aggregate is a union. -/
def default_step (b : Btf) (fuel : Nat) (t : BtfComposite) (member_name : String)
    (st1 : WalkSt) (field_ty_id : Nat) : RRes WalkSt :=
  match type_default b fuel field_ty_id with
  | .ok d =>
    .ok { st1 with impl_default :=
      st1.impl_default ++ ["            " ++ member_name ++ ": " ++ d] }
  | .err e =>
    if st1.gen_impl_default || !t.is_struct then
      .err ("Could not construct a necessary Default Impl: " ++ e)
    else .ok st1
  | .trap => .trap
  | .fuelOut => .fuelOut

/-- The member loop of `Btf::type_definition`'s Struct/Union arm
(btf.rs:859-921). -/
def member_walk (b : Btf) (fuel : Nat) (t : BtfComposite) (packed : Bool) :
    List BtfMember → WalkSt → RRes WalkSt
  | [], st => .ok st
  | member :: rest, st => do
    if member.bit_size = 0 ∧ member.bit_offset % 8 = 0 then
      let field_ty_id ← skip_mods_and_typedefs b fuel member.type_id
      let nt ← next_type b fuel field_ty_id
      let deps := st.deps ++ nt.toList
      let st1 ←
        if t.is_struct then do
          let padding ← required_padding b fuel st.offset (member.bit_offset / 8)
            member.type_id packed
          let agg :=
            if padding ≠ 0 then
              st.agg_content ++
                ["    __pad_" ++ toString st.offset ++ ": [u8; " ++ toString padding ++ "],"]
            else st.agg_content
          let impl :=
            if padding ≠ 0 then
              st.impl_default ++
                ["            __pad_" ++ toString st.offset ++ ": [u8::default(); " ++
                  toString padding ++ "]"]
            else st.impl_default
          let gen ← array_gen_flag b field_ty_id st.gen_impl_default
          pure { st with
            agg_content := agg
            impl_default := impl
            gen_impl_default := gen
            deps := deps }
        else pure { st with deps := deps }
      let st2 ← default_step b fuel t member.name st1 field_ty_id
      let msize ← size_of b fuel field_ty_id
      let offset2 ← addU32 (member.bit_offset / 8) msize
      let field_ty_str ← type_declaration b fuel field_ty_id
      let field_name := if member.name = "" then field_ty_str else member.name
      member_walk b fuel t packed rest
        { st2 with
          offset := offset2
          agg_content := st2.agg_content ++
            ["    pub " ++ field_name ++ ": " ++ field_ty_str ++ ","] }
    else .err "Struct bitfields not supported"

/-- The Struct/Union arm of `Btf::type_definition` (btf.rs:847-989),
returning the text written for this node and the dependent types pushed. -/
def process_composite (b : Btf) (fuel : Nat) (type_id : Nat) (t : BtfComposite) :
    RRes (String × List Nat) := do
  let packed ← is_struct_packed b fuel type_id t
  let st ← member_walk b fuel t packed t.members ⟨[], [], false, [], 0⟩
  let (agg_content, impl_default) ←
    if t.is_struct then do
      let padding ← required_padding b fuel st.offset t.size type_id packed
      if padding ≠ 0 then
        pure (st.agg_content ++
            ["    __pad_" ++ toString st.offset ++ ": [u8; " ++ toString padding ++ "],"],
          st.impl_default ++
            ["            __pad_" ++ toString st.offset ++ ": [u8::default(); " ++
              toString padding ++ "]"])
      else pure (st.agg_content, st.impl_default)
    else pure (st.agg_content, st.impl_default)
  let derive_line :=
    if !st.gen_impl_default && t.is_struct then "#[derive(Debug, Default, Copy, Clone)]"
    else if t.is_struct then "#[derive(Debug, Copy, Clone)]"
    else "#[derive(Copy, Clone)]"
  let packed_repr := if packed then ", packed" else ""
  let agg_type := if t.is_struct then "struct" else "union"
  let head := [derive_line, "#[repr(C" ++ packed_repr ++ ")]",
    "pub " ++ agg_type ++ " " ++ t.name ++ " \x7b"] ++ agg_content ++ ["\x7d"]
  let tail ←
    if st.gen_impl_default then
      pure (["impl Default for " ++ t.name ++ " \x7b",
          "    fn default() -> Self \x7b",
          "        " ++ t.name ++ " \x7b"] ++
        impl_default.map (· ++ ",") ++
        ["        \x7d", "    \x7d", "\x7d"])
    else if !t.is_struct then
      match impl_default with
      | i0 :: _ =>
        RRes.ok (["impl std::fmt::Debug for " ++ t.name ++ " \x7b",
          "    fn fmt(&self, f: &mut std::fmt::Formatter<'_>) -> std::fmt::Result \x7b",
          "        write!(f, \"(???)\")",
          "    \x7d", "\x7d",
          "impl Default for " ++ t.name ++ " \x7b",
          "    fn default() -> Self \x7b",
          "        " ++ t.name ++ " \x7b",
          i0 ++ ",",
          "        \x7d", "    \x7d", "\x7d"])
      | [] => RRes.trap
    else pure []
  pure (put_lines "" (head ++ tail), st.deps)

/-- The Enum arm of `Btf::type_definition` (btf.rs:991-1040). -/
def process_enum (t : BtfEnum) : RRes String := do
  let repr_size ←
    match t.size with
    | 1 => RRes.ok "8"
    | 2 => RRes.ok "16"
    | 4 => RRes.ok "32"
    | 8 => RRes.ok "64"
    | 16 => RRes.ok "128"
    | _ => RRes.err ("Invalid enum size: " ++ toString t.size)
  let signed := if t.values.any (fun v => decide (v.value < 0)) then "i" else "u"
  let head := ["#[derive(Debug, Copy, Clone, PartialEq, Eq)]",
      "#[repr(" ++ signed ++ repr_size ++ ")]",
      "pub enum " ++ t.name ++ " \x7b"] ++
    t.values.map (fun v => "    " ++ v.name ++ " = " ++ toString v.value ++ ",") ++
    ["\x7d"]
  let tail :=
    match t.values with
    | [] => []
    | v0 :: _ =>
      ["#[allow(clippy::derivable_impls)]",
        "impl Default for " ++ t.name ++ " \x7b",
        "    fn default() -> Self \x7b",
        "        " ++ t.name ++ "::" ++ v0.name,
        "    \x7d", "\x7d"]
  pure (put_lines "" (head ++ tail))

/-- The Enum64 arm of `Btf::type_definition` (btf.rs:1041-1083). -/
def process_enum64 (t : BtfEnum64) : RRes String := do
  let repr_size ←
    match t.size with
    | 1 => RRes.ok "8"
    | 2 => RRes.ok "16"
    | 4 => RRes.ok "32"
    | 8 => RRes.ok "64"
    | _ => RRes.err ("Invalid enum64 size: " ++ toString t.size)
  let signed := if t.signed then "i" else "u"
  let head := ["#[derive(Debug, Copy, Clone, PartialEq, Eq)]",
      "#[repr(" ++ signed ++ repr_size ++ ")]",
      "pub enum " ++ t.name ++ " \x7b"] ++
    t.values.map (fun v => "    " ++ v.name ++ " = " ++ toString v.value ++ ",") ++
    ["\x7d"]
  let tail :=
    match t.values with
    | [] => []
    | v0 :: _ =>
      ["#[allow(clippy::derivable_impls)]",
        "impl Default for " ++ t.name ++ " \x7b",
        "    fn default() -> Self \x7b",
        "        " ++ t.name ++ "::" ++ v0.name,
        "    \x7d", "\x7d"]
  pure (put_lines "" (head ++ tail))

/-- The var loop of `Btf::type_definition`'s Datasec arm
(btf.rs:1095-1132): static vars are skipped whole; padding comes from
`required_padding(offset, var.offset, var.type_id, false)`; the next
offset is the var's stored `offset + size`. -/
def datasec_walk (b : Btf) (fuel : Nat) :
    List BtfDatasecVar → Nat → List String → List Nat → RRes (List String × List Nat)
  | [], _, lines, deps => .ok (lines, deps)
  | dv :: rest, offset, lines, deps =>
    match type_by_id b dv.type_id with
    | .ok (.var v) =>
      if v.linkage = .static then datasec_walk b fuel rest offset lines deps
      else do
        let nt ← next_type b fuel v.type_id
        let deps := deps ++ nt.toList
        let padding ← required_padding b fuel offset dv.offset v.type_id false
        let lines :=
          if padding ≠ 0 then
            lines ++ ["    __pad_" ++ toString offset ++ ": [u8; " ++ toString padding ++ "],"]
          else lines
        let offset2 ← addU32 dv.offset dv.size
        let decl ← type_declaration b fuel v.type_id
        datasec_walk b fuel rest offset2
          (lines ++ ["    pub " ++ v.name ++ ": " ++ decl ++ ","]) deps
    | .ok _ => .err "BTF is invalid! Datasec var does not point to a var"
    | .err m => .err m
    | .trap => .trap
    | .fuelOut => .fuelOut

/-- The Datasec arm of `Btf::type_definition` (btf.rs:1084-1135). -/
def process_datasec (b : Btf) (fuel : Nat) (t : BtfDatasec) : RRes (String × List Nat) := do
  match t.name.data with
  | [] => RRes.err ("Datasec name is invalid: " ++ t.name)
  | c :: cs =>
    if c ≠ '.' then RRes.err ("Datasec name is invalid: " ++ t.name)
    else do
    let sec_name := String.mk cs
    let (var_lines, deps) ← datasec_walk b fuel t.vars 0 [] []
    let lines := ["#[derive(Debug, Copy, Clone)]", "#[repr(C)]",
      "pub struct " ++ sec_name ++ " \x7b"] ++ var_lines ++ ["\x7d"]
    pure (put_lines "" lines, deps)

/-- The worklist loop of `Btf::type_definition` (btf.rs:833-1152):
pop the front, skip processed ids, process one node, append the new
dependent types at the back. -/
def td_loop (b : Btf) : Nat → List Nat → List Nat → String → RRes String
  | 0, _, _, _ => .fuelOut
  | _ + 1, [], _, defn => .ok defn
  | fuel + 1, type_id :: rest, processed, defn =>
    if processed.contains type_id then td_loop b fuel rest processed defn
    else
      match type_by_id b type_id with
      | .ok (.struct t) =>
        match process_composite b fuel type_id t with
        | .ok (txt, deps) => td_loop b fuel (rest ++ deps) (type_id :: processed) (defn ++ txt)
        | .err m => .err m
        | .trap => .trap
        | .fuelOut => .fuelOut
      | .ok (.union t) =>
        match process_composite b fuel type_id t with
        | .ok (txt, deps) => td_loop b fuel (rest ++ deps) (type_id :: processed) (defn ++ txt)
        | .err m => .err m
        | .trap => .trap
        | .fuelOut => .fuelOut
      | .ok (.enum t) =>
        match process_enum t with
        | .ok txt => td_loop b fuel rest (type_id :: processed) (defn ++ txt)
        | .err m => .err m
        | .trap => .trap
        | .fuelOut => .fuelOut
      | .ok (.enum64 t) =>
        match process_enum64 t with
        | .ok txt => td_loop b fuel rest (type_id :: processed) (defn ++ txt)
        | .err m => .err m
        | .trap => .trap
        | .fuelOut => .fuelOut
      | .ok (.datasec t) =>
        match process_datasec b fuel t with
        | .ok (txt, deps) => td_loop b fuel (rest ++ deps) (type_id :: processed) (defn ++ txt)
        | .err m => .err m
        | .trap => .trap
        | .fuelOut => .fuelOut
      | .ok ty => .err ("Invalid type: " ++ kind_str ty)
      | .err m => .err m
      | .trap => .trap
      | .fuelOut => .fuelOut

/-- `Btf::type_definition` (btf.rs:771-1155). -/
def type_definition (b : Btf) (fuel : Nat) (type_id : Nat) : RRes String :=
  match is_terminal b type_id with
  | .ok true => .err "Tried to print type definition for terminal type"
  | .ok false => td_loop b fuel [type_id] [] ""
  | .err m => .err m
  | .trap => .trap
  | .fuelOut => .fuelOut

/-- Modelled from the spec: the Datasec padding rule as §4.4 words it,
"identically to the struct padding rule but without alignment capping" —
the variable's natural alignment is used uncapped. Stated only to compare
against the code's `required_padding`. -/
def required_padding_uncapped (b : Btf) (fuel : Nat) (current_offset required_offset : Nat)
    (type_id : Nat) : RRes Nat :=
  if ¬ current_offset ≤ required_offset then
    .err "Current offset ahead of required offset"
  else
    match align_of b fuel type_id with
    | .ok a =>
      if a = 0 then .err ("Failed to get alignment of type_id: " ++ toString type_id)
      else
        let aligned_offset := (current_offset + a - 1) / a * a
        if aligned_offset = required_offset then .ok 0
        else .ok (required_offset - current_offset)
    | .err m => .err m
    | .trap => .trap
    | .fuelOut => .fuelOut

/-- Modelled from the spec (as amended): the struct padding rule in
unpacked mode with the member's natural alignment capped at 4 bytes,
written independently with `min`. -/
def required_padding_capped (b : Btf) (fuel : Nat) (current_offset required_offset : Nat)
    (type_id : Nat) : RRes Nat :=
  if ¬ current_offset ≤ required_offset then
    .err "Current offset ahead of required offset"
  else
    match align_of b fuel type_id with
    | .ok a =>
      if a = 0 then .err ("Failed to get alignment of type_id: " ++ toString type_id)
      else
        let align := min a 4
        let aligned_offset := (current_offset + align - 1) / align * align
        if aligned_offset = required_offset then .ok 0
        else .ok (required_offset - current_offset)
    | .err m => .err m
    | .trap => .trap
    | .fuelOut => .fuelOut

/-- The byte footprint of a struct's member walk: replays exactly the
offset-relevant computations of `member_walk` (unwrap, padding, member
size, offset update) and accumulates the sum of member sizes plus all
inserted padding. -/
def member_footprint (b : Btf) (fuel : Nat) (packed : Bool) :
    List BtfMember → Nat → Nat → RRes (Nat × Nat)
  | [], offset, total => .ok (offset, total)
  | member :: rest, offset, total => do
    let field_ty_id ← skip_mods_and_typedefs b fuel member.type_id
    let padding ← required_padding b fuel offset (member.bit_offset / 8) member.type_id packed
    let msize ← size_of b fuel field_ty_id
    let offset2 ← addU32 (member.bit_offset / 8) msize
    member_footprint b fuel packed rest offset2 (total + padding + msize)

/-- Whether `size_of`'s match lists the node as unsizeable
(btf.rs:525-534). -/
def unsizeable : BtfType → Bool
  | .void => true
  | .volatile _ => true
  | .const _ => true
  | .restrict _ => true
  | .typedef _ => true
  | .funcProto _ => true
  | .fwd _ => true
  | .func _ => true
  | .declTag _ => true
  | .typeTag _ => true
  | _ => false

/-- One `Typedef` record whose `name_off` (100) lies beyond the string
table: `[name_off = 100, info = kind 8 << 24, type_id = 0]`. -/
def c1_type_data : List Nat := [100, 0, 0, 0, 0, 0, 0, 8, 0, 0, 0, 0]

/-- A string table holding only the empty string. -/
def c1_str_data : List Nat := [0]

/-- One `Ptr` record whose pointee is the dangling TypeId 100. -/
def c2_type_data : List Nat := [0, 0, 0, 0, 0, 0, 0, 2, 100, 0, 0, 0]

def c2_str_data : List Nat := [0]

/-- One `Int` record with `bits = 255` (extra word `[255, 0, 0, 0]`). -/
def c3_type_data : List Nat := [0, 0, 0, 0, 0, 0, 0, 1, 0, 0, 0, 0, 255, 0, 0, 0]

def c3_str_data : List Nat := [0]

/-- The graph decoded from `c3_type_data`. -/
def c3_btf : Btf := ⟨[.void, .int ⟨"", 255, 0, .none⟩], 8⟩

/-- A well-formed graph with one 32-bit unsigned `Int`. -/
def c3w_btf : Btf := ⟨[.void, .int ⟨"u32", 32, 0, .none⟩], 8⟩

/-- One `Typedef` record named "t" whose referenced type is itself
(TypeId 1). -/
def c4_type_data : List Nat := [1, 0, 0, 0, 0, 0, 0, 8, 1, 0, 0, 0]

def c4_str_data : List Nat := [0, 116, 0]

/-- The graph decoded from `c4_type_data`: a self-referential typedef. -/
def c4_btf : Btf := ⟨[.void, .typedef ⟨String.mk ['t'], 1⟩], 8⟩

/-- The spec's packing example: struct `p` (TypeId 3) has two 1-byte
members at byte offsets 0 and 1 plus a 4-byte member at byte offset 1,
declared size 5; struct `q` (TypeId 4) has just the two 1-byte members,
declared size 2. -/
def c5_btf : Btf :=
  ⟨[.void,
    .int ⟨"u8", 8, 0, .none⟩,
    .int ⟨"u32", 32, 0, .none⟩,
    .struct ⟨"p", true, 5, [⟨"a", 1, 0, 0⟩, ⟨"b", 1, 0, 8⟩, ⟨"c", 2, 0, 8⟩]⟩,
    .struct ⟨"q", true, 2, [⟨"a", 1, 0, 0⟩, ⟨"b", 1, 0, 8⟩]⟩], 8⟩

/-- A struct `s` whose member `next` is TypeId 2, where record 2 is a
`Ptr` whose pointee is TypeId 2 — itself: a pointer cycle that never
reaches a composite. -/
def c6_type_data : List Nat :=
  [1, 0, 0, 0, 1, 0, 0, 4, 8, 0, 0, 0,
   3, 0, 0, 0, 2, 0, 0, 0, 0, 0, 0, 0,
   0, 0, 0, 0, 0, 0, 0, 2, 2, 0, 0, 0]

def c6_str_data : List Nat := [0, 115, 0, 110, 101, 120, 116, 0]

/-- The graph decoded from `c6_type_data`. -/
def c6_btf : Btf := ⟨[.void, .struct ⟨"s", true, 8, [⟨"next", 2, 0, 0⟩]⟩, .ptr ⟨2⟩], 8⟩

/-- The same struct, but the pointer member points back at the struct:
the spec's struct-containing-a-pointer-to-itself example. -/
def c6_good_type_data : List Nat :=
  [1, 0, 0, 0, 1, 0, 0, 4, 8, 0, 0, 0,
   3, 0, 0, 0, 2, 0, 0, 0, 0, 0, 0, 0,
   0, 0, 0, 0, 0, 0, 0, 2, 1, 0, 0, 0]

/-- The graph decoded from `c6_good_type_data`. -/
def c6_good_btf : Btf := ⟨[.void, .struct ⟨"s", true, 8, [⟨"next", 2, 0, 0⟩]⟩, .ptr ⟨1⟩], 8⟩

/-- A datasec `.data` with a 4-byte `u32` var at stored offset 0 and an
8-byte (8-byte aligned) var at stored offset 8. -/
def c8_btf : Btf :=
  ⟨[.void,
    .int ⟨"a", 32, 0, .none⟩,
    .int ⟨"b", 64, 0, .none⟩,
    .var ⟨"x", 1, .globalAlloc⟩,
    .var ⟨"y", 2, .globalAlloc⟩,
    .datasec ⟨".data", 16, [⟨3, 0, 4⟩, ⟨4, 8, 8⟩]⟩], 8⟩

/-- One `Int` record (`u32`) and one `Union` record (`un`, size 4) with
two `u32` members, both at offset 0. -/
def c9_type_data : List Nat :=
  [8, 0, 0, 0, 0, 0, 0, 1, 0, 0, 0, 0, 32, 0, 0, 0,
   1, 0, 0, 0, 2, 0, 0, 5, 4, 0, 0, 0,
   4, 0, 0, 0, 1, 0, 0, 0, 0, 0, 0, 0,
   6, 0, 0, 0, 1, 0, 0, 0, 0, 0, 0, 0]

def c9_str_data : List Nat := [0, 117, 110, 0, 97, 0, 98, 0, 117, 51, 50, 0]

/-- The graph decoded from `c9_type_data`. -/
def c9_btf : Btf :=
  ⟨[.void,
    .int ⟨"u32", 32, 0, .none⟩,
    .union ⟨"un", false, 4, [⟨"a", 1, 0, 0⟩, ⟨"b", 1, 0, 0⟩]⟩], 8⟩

/-- A struct `nm` whose second member's stored byte offset (0) lies
before the running offset reached after its first 4-byte member. -/
def c10_btf : Btf :=
  ⟨[.void,
    .int ⟨"u32", 32, 0, .none⟩,
    .struct ⟨"nm", true, 8, [⟨"c", 1, 0, 0⟩, ⟨"d", 1, 0, 0⟩]⟩], 8⟩

theorem RRes.monad_bind {α β : Type} (x : RRes α) (f : α → RRes β) : x >>= f = x.bind f := rfl

theorem RRes.monad_pure {α : Type} (a : α) : (pure a : RRes α) = RRes.ok a := rfl

theorem RRes.bind_eq_ok {α β : Type} {x : RRes α} {f : α → RRes β} {c : β} :
    x.bind f = .ok c ↔ ∃ a, x = .ok a ∧ f a = .ok c := by
  cases x <;> simp [RRes.bind]

/-- `required_padding` rejects a running offset ahead of the required
offset, whatever the remaining arguments. -/
theorem required_padding_lt_err (b : Btf) (fuel cur req tid : Nat) (packed : Bool)
    (h : req < cur) :
    required_padding b fuel cur req tid packed = .err "Current offset ahead of required offset" := by
  rw [required_padding, if_pos (by omega)]

/-- A successful `required_padding` keeps the running offset at or before
the required offset and never returns more than the gap. -/
theorem required_padding_ok_bounds {b : Btf} {fuel cur req tid : Nat} {packed : Bool} {p : Nat}
    (h : required_padding b fuel cur req tid packed = .ok p) : cur ≤ req ∧ p ≤ req - cur := by
  rw [required_padding] at h
  by_cases hcr : cur ≤ req
  · rw [if_neg (by omega)] at h
    refine ⟨hcr, ?_⟩
    rw [RRes.bind_eq_ok] at h
    obtain ⟨align, -, h⟩ := h
    dsimp only at h
    split at h
    · exact (RRes.ok.inj h) ▸ Nat.zero_le _
    · exact (RRes.ok.inj h) ▸ Nat.le_refl _
  · rw [if_pos (by omega)] at h
    cases h

theorem addU32_ok {a b c : Nat} (h : addU32 a b = .ok c) : c = a + b := by
  rw [addU32] at h
  split at h
  · exact (RRes.ok.inj h).symm
  · cases h

/-- C1: refuted in the code — decoding the buffer `c1_type_data` /
`c1_str_data`, whose single Typedef record carries a string-table name
offset (100) beyond the table, reaches `get_btf_str`, whose
`string_table[offset]` index is not bounds-checked: the decoder panics
instead of returning a typed error. -/
theorem c1_unchecked_name_offset_traps : load c1_type_data c1_str_data = RRes.trap := rfl

/-- C2 counterexample: a buffer whose single Ptr record references the
dangling TypeId 100 decodes successfully — the decode itself does not
fail on a dangling reference. -/
theorem c2_dangling_reference_decodes :
    load c2_type_data c2_str_data = RRes.ok [BtfType.void, BtfType.ptr ⟨100⟩] := rfl

/-- C2 as amended: referenced TypeIds are validated at lookup time, not
at decode time — `type_by_id` returns the entry for every id inside the
table and a typed `Invalid type_id` error for every id outside it. -/
theorem c2_lookup_validates (types : List BtfType) (ptr_size id : Nat) :
    (id < types.length → type_by_id ⟨types, ptr_size⟩ id = .ok (types.getD id .void)) ∧
    (types.length ≤ id →
      type_by_id ⟨types, ptr_size⟩ id = .err ("Invalid type_id: " ++ toString id)) := by
  constructor
  · intro h
    rw [type_by_id, if_pos h]
  · intro h
    rw [type_by_id, if_neg (by simpa using Nat.not_lt.mpr h)]

/-- C3 counterexample: the buffer `c3_type_data` decodes to a graph whose
TypeId 1 is an `Int` with `bit_width = 255`; `ceil(255/8) = 32`, but
`size_of` computes `t.bits + 7` in `u8` arithmetic, which overflows and
traps instead of returning 32. -/
theorem c3_int_bit_width_overflow :
    load c3_type_data c3_str_data = RRes.ok c3_btf.types ∧
    size_of c3_btf 5 1 = RRes.trap ∧ (255 + 7) / 8 = 32 :=
  ⟨rfl, rfl, rfl⟩

/-- C4: refuted in the code — the buffer `c4_type_data` decodes to a
graph whose TypeId 1 is a Typedef referencing itself, and on it the
unwrap loop of `skip_mods_and_typedefs` never terminates (it yields
`fuelOut` at every fuel), instead of returning an error. -/
theorem c4_skip_mods_self_typedef_diverges :
    load c4_type_data c4_str_data = RRes.ok c4_btf.types ∧
    ∀ fuel, skip_mods_and_typedefs c4_btf fuel 1 = RRes.fuelOut := by
  refine ⟨rfl, ?_⟩
  intro fuel
  induction fuel with
  | zero => rfl
  | succ n ih => exact ih

/-- C7: declaration generation is a deterministic pure function of the
graph and the requested TypeId — two runs with the same arguments that
both succeed return the same text. -/
theorem c7_type_definition_deterministic (b : Btf) (fuel type_id : Nat) (s1 s2 : String)
    (h1 : type_definition b fuel type_id = .ok s1)
    (h2 : type_definition b fuel type_id = .ok s2) : s1 = s2 := by
  rw [h1] at h2
  exact RRes.ok.inj h2

/-- Witness for C7 at the self-referential struct graph. -/
theorem c7_type_definition_witness :
    ∃ s, type_definition c6_good_btf 100 1 = RRes.ok s ∧ s = s :=
  ⟨_, rfl, c7_type_definition_deterministic c6_good_btf 100 1 _ _ rfl rfl⟩

/-- C6 as amended: the struct containing a pointer to itself decodes and
is declared successfully — pointer indirection into an already-processed
composite breaks the cycle via the `processed` set. -/
theorem c6_self_pointer_struct_declared :
    load c6_good_type_data c6_str_data = RRes.ok c6_good_btf.types ∧
    ∃ s, type_definition c6_good_btf 100 1 = RRes.ok s :=
  ⟨rfl, _, rfl⟩

/-- C8 counterexample: in the graph `c8_btf` the Datasec var walk reaches
`required_padding(4, 8, type 2, packed = false)` for its 8-byte-aligned
variable; the code inserts 4 bytes of padding because the alignment is
capped at 4, while the spec's uncapped rule would insert none, and the
generated Datasec text indeed contains the capped `__pad_4: [u8; 4]`
field. -/
theorem c8_datasec_padding_is_capped :
    required_padding c8_btf 50 4 8 2 false = RRes.ok 4 ∧
    required_padding_uncapped c8_btf 50 4 8 2 = RRes.ok 0 ∧
    type_definition c8_btf 50 5 = RRes.ok
      "#[derive(Debug, Copy, Clone)]\n#[repr(C)]\npub struct data \x7b\n    pub x: u32,\n    __pad_4: [u8; 4],\n    pub y: u64,\n\x7d\n" :=
  ⟨rfl, rfl, rfl⟩

/-- C9 counterexample: the union `un` (stored size 4, two `u32` members)
decodes and its declaration is generated successfully, yet the sum of its
members' sizes (4 + 4, with no padding inserted) exceeds the stored
size 4. -/
theorem c9_union_members_exceed_size :
    load c9_type_data c9_str_data = RRes.ok c9_btf.types ∧
    (∃ s, type_definition c9_btf 50 2 = RRes.ok s) ∧
    size_of c9_btf 50 2 = RRes.ok 4 ∧
    size_of c9_btf 50 1 = RRes.ok 4 ∧
    ¬ (4 + 4 ≤ 4) :=
  ⟨rfl, ⟨_, rfl⟩, rfl, rfl, by omega⟩

/-- C8 as amended: the padding rule the Datasec var walk invokes —
`required_padding` with `packed = false` — coincides with the struct
padding rule with the member's natural alignment capped at 4 bytes, for
every graph, fuel, pair of offsets and type. -/
theorem c8_datasec_padding_equals_capped_rule (b : Btf) (fuel cur req tid : Nat) :
    required_padding b fuel cur req tid false = required_padding_capped b fuel cur req tid := by
  rw [required_padding, required_padding_capped]
  by_cases h1 : cur ≤ req
  · rw [if_neg (not_not_intro h1), if_neg (not_not_intro h1)]
    simp only [Bool.false_eq_true, if_false]
    cases halign : align_of b fuel tid with
    | ok a =>
      by_cases ha : a = 0
      · simp [ha, RRes.bind]
      · have hmin : (if a > 4 then 4 else a) = min a 4 := by
          by_cases h4 : a > 4 <;> simp [h4] <;> omega
        simp only [if_neg ha, hmin, RRes.bind]
    | err m => simp [RRes.bind]
    | trap => simp [RRes.bind]
    | fuelOut => simp [RRes.bind]
  · rw [if_pos h1, if_pos h1]

/-- C10: the generator refuses non-monotonic member offsets:
`required_padding` fails whenever the running offset is ahead of the
required offset; the struct member walk never succeeds on a member whose
stored byte offset lies before the running offset; and on the concrete
struct `nm` (second member at byte 0 after a 4-byte first member)
`type_definition` returns exactly that error. -/
theorem c10_offset_monotonicity_enforced :
    (∀ (b : Btf) (fuel cur req tid : Nat) (packed : Bool), req < cur →
      required_padding b fuel cur req tid packed =
        .err "Current offset ahead of required offset") ∧
    (∀ (b : Btf) (fuel : Nat) (t : BtfComposite) (packed : Bool) (m : BtfMember)
      (rest : List BtfMember) (st st' : WalkSt), t.is_struct = true →
      m.bit_offset / 8 < st.offset →
      member_walk b fuel t packed (m :: rest) st ≠ .ok st') ∧
    type_definition c10_btf 50 2 = .err "Current offset ahead of required offset" := by
  refine ⟨required_padding_lt_err, ?_, rfl⟩
  intro b fuel t packed m rest st st' hstruct hlt hw
  rw [member_walk] at hw
  split at hw
  · simp only [RRes.monad_bind, RRes.monad_pure, RRes.bind_eq_ok] at hw
    obtain ⟨fid, -, hw⟩ := hw
    obtain ⟨nt, -, hw⟩ := hw
    obtain ⟨pad, hpad, -⟩ := hw
    rw [required_padding_lt_err b fuel st.offset (m.bit_offset / 8) m.type_id packed hlt] at hpad
    cases hpad
  · cases hw

/-- C3 as amended: after a successful unwrap, `size_of` follows the
claimed dispatch table, with the machine-arithmetic provisos the code
imposes: the Int formula `ceil(bit_width/8)` holds for `bits` up to 248
(the `u8` addition `bits + 7` traps above), and the Array product holds
when it fits in `u32`; Struct/Union/Enum/Enum64/Datasec return the stored
size, Var the referenced size, Float the stored size, and every kind the
code lists as unsizeable yields the typed unsupported-type error. -/
theorem c3_size_of_dispatch (b : Btf) (fuel id sid : Nat)
    (hs : skip_mods_and_typedefs b (fuel + 1) id = .ok sid) :
    (∀ t, type_by_id b sid = .ok (.int t) → t.bits ≤ 248 →
      size_of b (fuel + 1) id = .ok ((t.bits + 7) / 8)) ∧
    (∀ t, type_by_id b sid = .ok (.ptr t) → size_of b (fuel + 1) id = .ok b.ptr_size) ∧
    (∀ t s, type_by_id b sid = .ok (.array t) → size_of b fuel t.val_type_id = .ok s →
      t.nelems * s < 4294967296 → size_of b (fuel + 1) id = .ok (t.nelems * s)) ∧
    (∀ t, type_by_id b sid = .ok (.struct t) → size_of b (fuel + 1) id = .ok t.size) ∧
    (∀ t, type_by_id b sid = .ok (.union t) → size_of b (fuel + 1) id = .ok t.size) ∧
    (∀ t, type_by_id b sid = .ok (.enum t) → size_of b (fuel + 1) id = .ok t.size) ∧
    (∀ t, type_by_id b sid = .ok (.enum64 t) → size_of b (fuel + 1) id = .ok t.size) ∧
    (∀ t, type_by_id b sid = .ok (.datasec t) → size_of b (fuel + 1) id = .ok t.size) ∧
    (∀ t s, type_by_id b sid = .ok (.var t) → size_of b fuel t.type_id = .ok s →
      size_of b (fuel + 1) id = .ok s) ∧
    (∀ t, type_by_id b sid = .ok (.float t) → size_of b (fuel + 1) id = .ok t.size) ∧
    (∀ ty, type_by_id b sid = .ok ty → unsizeable ty = true →
      size_of b (fuel + 1) id = .err ("Cannot get size of type_id: " ++ toString sid)) := by
  refine ⟨?_, ?_, ?_, ?_, ?_, ?_, ?_, ?_, ?_, ?_, ?_⟩
  · intro t ht hbits
    simp only [size_of, hs, ht]
    rw [addU8, if_pos (by omega)]
    rfl
  · intro t ht
    simp only [size_of, hs, ht]
  · intro t s ht hsz hov
    simp only [size_of, hs, ht, hsz, RRes.bind]
    rw [mulU32, if_pos hov]
  · intro t ht
    simp only [size_of, hs, ht]
  · intro t ht
    simp only [size_of, hs, ht]
  · intro t ht
    simp only [size_of, hs, ht]
  · intro t ht
    simp only [size_of, hs, ht]
  · intro t ht
    simp only [size_of, hs, ht]
  · intro t s ht hsz
    simp only [size_of, hs, ht, hsz]
  · intro t ht
    simp only [size_of, hs, ht]
  · intro ty ht hu
    cases ty <;> simp only [unsizeable] at hu <;>
      first
        | exact absurd hu (by decide)
        | simp only [size_of, hs, ht]

/-- Witness for C3 at a graph with one 32-bit Int: `size_of = 4`. -/
theorem c3_size_of_dispatch_witness : size_of c3w_btf 5 1 = RRes.ok 4 :=
  (c3_size_of_dispatch c3w_btf 4 1 1 rfl).1 ⟨"u32", 32, 0, .none⟩ rfl (by decide)

/-- The member scan of `is_struct_packed` returns true exactly when some
member with zero bit size has an alignment the scan resolves and a bit
offset that is not a multiple of that alignment times 8. -/
theorem packed_scan_iff (f : Nat → RRes Nat) (ms : List BtfMember) {bres : Bool}
    (h : packed_scan f ms = .ok bres) :
    bres = true ↔ ∃ m, m ∈ ms ∧ m.bit_size = 0 ∧ ∃ a, f m.type_id = .ok a ∧ a ≠ 0 ∧
      m.bit_offset % (a * 8) ≠ 0 := by
  induction ms with
  | nil =>
    rw [packed_scan] at h
    have hb : bres = false := (RRes.ok.inj h).symm
    subst hb
    simp
  | cons m ms ih =>
    rw [packed_scan] at h
    cases hf : f m.type_id with
    | ok a =>
      rw [hf] at h
      dsimp only at h
      by_cases ha : a = 0
      · rw [if_pos ha] at h
        cases h
      · rw [if_neg ha] at h
        by_cases hbs : m.bit_size = 0
        · rw [if_pos hbs, mulU32] at h
          by_cases hov : a * 8 < 4294967296
          · rw [if_pos hov] at h
            simp only [RRes.bind] at h
            by_cases hmis : m.bit_offset % (a * 8) ≠ 0
            · rw [if_pos hmis] at h
              have hb : bres = true := (RRes.ok.inj h).symm
              subst hb
              simp only [true_iff]
              exact ⟨m, List.mem_cons_self m ms, hbs, a, hf, ha, hmis⟩
            · rw [if_neg hmis] at h
              rw [ih h]
              constructor
              · rintro ⟨m1, hm1, hp⟩
                exact ⟨m1, List.mem_cons_of_mem m hm1, hp⟩
              · rintro ⟨m1, hm1, hbs1, a1, hf1, ha1, hmis1⟩
                rcases List.mem_cons.mp hm1 with hh | hh
                · subst hh
                  rw [hf] at hf1
                  have ha2 : a = a1 := RRes.ok.inj hf1
                  subst ha2
                  exact absurd hmis1 hmis
                · exact ⟨m1, hh, hbs1, a1, hf1, ha1, hmis1⟩
          · rw [if_neg hov] at h
            simp only [RRes.bind] at h
            cases h
        · rw [if_neg hbs] at h
          rw [ih h]
          constructor
          · rintro ⟨m1, hm1, hp⟩
            exact ⟨m1, List.mem_cons_of_mem m hm1, hp⟩
          · rintro ⟨m1, hm1, hbs1, hp⟩
            rcases List.mem_cons.mp hm1 with hh | hh
            · subst hh
              exact absurd hbs1 hbs
            · exact ⟨m1, hh, hbs1, hp⟩
    | err m1 =>
      rw [hf] at h
      simp at h
    | trap =>
      rw [hf] at h
      simp at h
    | fuelOut =>
      rw [hf] at h
      simp at h

/-- C5: `is_struct_packed` returns true only for Struct kind (a Union is
never packed), and then exactly when the declared size is not a multiple
of the computed alignment, or some zero-bit-size member sits at a bit
offset that is not a multiple of its alignment times 8; bitfield members
are exempt, and it returns false in all other successful cases. -/
theorem c5_is_packed_characterisation (b : Btf) (fuel sid : Nat) (t : BtfComposite) (bres : Bool)
    (h : is_struct_packed b fuel sid t = .ok bres) :
    bres = true ↔ (t.is_struct = true ∧ ∃ al, align_of b fuel sid = .ok al ∧
      (t.size % al ≠ 0 ∨ ∃ m, m ∈ t.members ∧ m.bit_size = 0 ∧
        ∃ a, align_of b fuel m.type_id = .ok a ∧ a ≠ 0 ∧ m.bit_offset % (a * 8) ≠ 0)) := by
  rw [is_struct_packed] at h
  cases hstr : t.is_struct with
  | false =>
    rw [hstr] at h
    simp only [Bool.not_false, if_true] at h
    have hb : bres = false := (RRes.ok.inj h).symm
    subst hb
    simp
  | true =>
    rw [hstr] at h
    simp only [Bool.not_true, Bool.false_eq_true, if_false] at h
    cases hal : align_of b fuel sid with
    | ok al =>
      rw [hal] at h
      dsimp only at h
      by_cases hal0 : al = 0
      · rw [if_pos hal0] at h
        cases h
      · rw [if_neg hal0] at h
        by_cases hsz : t.size % al ≠ 0
        · rw [if_pos hsz] at h
          have hb : bres = true := (RRes.ok.inj h).symm
          subst hb
          simp only [true_iff]
          exact ⟨trivial, al, rfl, Or.inl hsz⟩
        · rw [if_neg hsz] at h
          rw [packed_scan_iff (align_of b fuel) t.members h]
          constructor
          · rintro ⟨m1, hm1, hp⟩
            exact ⟨rfl, al, rfl, Or.inr ⟨m1, hm1, hp⟩⟩
          · rintro ⟨-, al1, hal1, hd⟩
            have ha2 : al = al1 := RRes.ok.inj hal1
            subst ha2
            rcases hd with hd | hd
            · exact absurd hd hsz
            · exact hd
    | err m1 =>
      rw [hal] at h
      dsimp only at h
      exact RRes.noConfusion h
    | trap =>
      rw [hal] at h
      dsimp only at h
      exact RRes.noConfusion h
    | fuelOut =>
      rw [hal] at h
      dsimp only at h
      exact RRes.noConfusion h

/-- Witness for C5 at the spec's example structs: the 3-member struct of
size 5 is packed. -/
theorem c5_is_packed_witness :
    (true : Bool) = true ∧ ∃ al, align_of c5_btf 10 3 = RRes.ok al ∧
      (5 % al ≠ 0 ∨ ∃ m, m ∈ [(⟨"a", 1, 0, 0⟩ : BtfMember), ⟨"b", 1, 0, 8⟩, ⟨"c", 2, 0, 8⟩] ∧
        m.bit_size = 0 ∧ ∃ a, align_of c5_btf 10 m.type_id = RRes.ok a ∧ a ≠ 0 ∧
          m.bit_offset % (a * 8) ≠ 0) :=
  (c5_is_packed_characterisation c5_btf 10 3
    ⟨"p", true, 5, [⟨"a", 1, 0, 0⟩, ⟨"b", 1, 0, 8⟩, ⟨"c", 2, 0, 8⟩]⟩ true rfl).mp rfl

/-- A successful footprint run keeps the accumulated sum of member sizes
and padding below the running offset. -/
theorem member_footprint_mono (b : Btf) (fuel : Nat) (packed : Bool) :
    ∀ (ms : List BtfMember) (off tot off2 tot2 : Nat),
      member_footprint b fuel packed ms off tot = .ok (off2, tot2) → tot ≤ off → tot2 ≤ off2 := by
  intro ms
  induction ms with
  | nil =>
    intro off tot off2 tot2 h hle
    rw [member_footprint] at h
    have h2 := RRes.ok.inj h
    cases h2
    exact hle
  | cons m rest ih =>
    intro off tot off2 tot2 h hle
    rw [member_footprint] at h
    simp only [RRes.monad_bind, RRes.monad_pure, RRes.bind_eq_ok] at h
    obtain ⟨fid, hskip, h⟩ := h
    obtain ⟨pad, hpad, h⟩ := h
    obtain ⟨msize, hsize, h⟩ := h
    obtain ⟨off3, hadd, h⟩ := h
    have hbound := required_padding_ok_bounds hpad
    have hoff3 := addU32_ok hadd
    exact ih off3 (tot + pad + msize) off2 tot2 h (by omega)

/-- A successful struct member walk determines a successful footprint run
over the same members with the same final offset. -/
theorem member_walk_footprint (b : Btf) (fuel : Nat) (t : BtfComposite) (packed : Bool)
    (hstruct : t.is_struct = true) :
    ∀ (ms : List BtfMember) (st st' : WalkSt),
      member_walk b fuel t packed ms st = .ok st' → ∀ tot, ∃ tot',
        member_footprint b fuel packed ms st.offset tot = .ok (st'.offset, tot') := by
  intro ms
  induction ms with
  | nil =>
    intro st st' hw tot
    rw [member_walk] at hw
    have h2 := RRes.ok.inj hw
    subst h2
    exact ⟨tot, rfl⟩
  | cons m rest ih =>
    intro st st' hw tot
    rw [member_walk] at hw
    split at hw
    · simp only [RRes.monad_bind, RRes.monad_pure, RRes.bind_eq_ok] at hw
      obtain ⟨fid, hskip, hw⟩ := hw
      obtain ⟨nt, hnt, hw⟩ := hw
      obtain ⟨pad, hpad, hw⟩ := hw
      obtain ⟨gen, hgen, hw⟩ := hw
      obtain ⟨y, hy, hw⟩ := hw
      have hyv := RRes.ok.inj hy
      subst hyv
      obtain ⟨st2, hst2, hw⟩ := hw
      obtain ⟨msize, hsize, hw⟩ := hw
      obtain ⟨off2, hadd, hw⟩ := hw
      obtain ⟨fstr, hdecl, hrec⟩ := hw
      obtain ⟨tot', hrec'⟩ := ih _ _ hrec (tot + pad + msize)
      refine ⟨tot', ?_⟩
      rw [member_footprint]
      simp only [RRes.monad_bind, RRes.monad_pure]
      rw [hskip]
      simp only [RRes.bind]
      rw [hpad]
      simp only [RRes.bind]
      rw [hsize]
      simp only [RRes.bind]
      rw [hadd]
      simp only [RRes.bind]
      exact hrec'
    · cases hw

/-- C9 as amended: `size_of` on a composite returns exactly the stored
size field (never recomputed from members); and for every Struct whose
member walk and trailing padding succeed, the sum of member sizes plus
all inserted padding is bounded by the stored size. -/
theorem c9_composite_size_and_struct_bound :
    (∀ (b : Btf) (fuel id : Nat) (t : BtfComposite),
      (type_by_id b id = .ok (.struct t) ∨ type_by_id b id = .ok (.union t)) →
      size_of b (fuel + 1) id = .ok t.size) ∧
    (∀ (b : Btf) (fuel id : Nat) (t : BtfComposite) (packed : Bool) (stf : WalkSt) (pad : Nat),
      t.is_struct = true →
      member_walk b fuel t packed t.members ⟨[], [], false, [], 0⟩ = .ok stf →
      required_padding b fuel stf.offset t.size id packed = .ok pad →
      ∃ total, member_footprint b fuel packed t.members 0 0 = .ok (stf.offset, total) ∧
        total + pad ≤ t.size) := by
  constructor
  · intro b fuel id t h
    rcases h with h | h
    · have hskip : skip_mods_and_typedefs b (fuel + 1) id = .ok id := by
        rw [skip_mods_and_typedefs, h]
      simp only [size_of, hskip, h]
    · have hskip : skip_mods_and_typedefs b (fuel + 1) id = .ok id := by
        rw [skip_mods_and_typedefs, h]
      simp only [size_of, hskip, h]
  · intro b fuel id t packed stf pad hstruct hw hpad
    obtain ⟨total, hfp⟩ := member_walk_footprint b fuel t packed hstruct t.members _ stf hw 0
    have hmono := member_footprint_mono b fuel packed t.members 0 0 stf.offset total hfp (Nat.le_refl 0)
    have hbound := required_padding_ok_bounds hpad
    exact ⟨total, hfp, by omega⟩

/-- `next_type` never returns on the self-referential pointer (id 2 points to id 2):
at every fuel the walk runs out. -/
theorem c6_next_type_ptr_cycle (n : Nat) : next_type c6_btf n 2 = RRes.fuelOut := by
  induction n with
  | zero => rfl
  | succ k ih => exact ih

/-- The member walk over the struct factors through the diverging `next_type` call:
everything before it is a finite concrete computation. -/
theorem c6_walk_split (k : Nat) :
    ∃ f, member_walk c6_btf (k + 2) ⟨"s", true, 8, [⟨"next", 2, 0, 0⟩]⟩ false
      [⟨"next", 2, 0, 0⟩] ⟨[], [], false, [], 0⟩ = RRes.bind (next_type c6_btf k 2) f :=
  ⟨_, rfl⟩

/-- Hence the member walk over the struct runs out of fuel at every fuel. -/
theorem c6_walk_diverges (k : Nat) :
    member_walk c6_btf (k + 2) ⟨"s", true, 8, [⟨"next", 2, 0, 0⟩]⟩ false
      [⟨"next", 2, 0, 0⟩] ⟨[], [], false, [], 0⟩ = RRes.fuelOut := by
  obtain ⟨f, hf⟩ := c6_walk_split k
  rw [hf, c6_next_type_ptr_cycle k]
  rfl

/-- `process_composite` on the struct factors through the member walk
(the packedness check before it terminates with `ok false`). -/
theorem c6_process_split (k : Nat) :
    ∃ g, process_composite c6_btf (k + 2) 1 ⟨"s", true, 8, [⟨"next", 2, 0, 0⟩]⟩ =
      RRes.bind (member_walk c6_btf (k + 2) ⟨"s", true, 8, [⟨"next", 2, 0, 0⟩]⟩ false
        [⟨"next", 2, 0, 0⟩] ⟨[], [], false, [], 0⟩) g :=
  ⟨_, rfl⟩

/-- Hence `process_composite` on the struct runs out of fuel at every fuel. -/
theorem c6_process_diverges (k : Nat) :
    process_composite c6_btf (k + 2) 1 ⟨"s", true, 8, [⟨"next", 2, 0, 0⟩]⟩ = RRes.fuelOut := by
  obtain ⟨g, hg⟩ := c6_process_split k
  rw [hg, c6_walk_diverges k]
  rfl

/-- `type_definition` on the struct containing the cyclic pointer member diverges
at every fuel. -/
theorem c6_td_diverges : ∀ fuel, type_definition c6_btf fuel 1 = RRes.fuelOut := by
  intro fuel
  match fuel with
  | 0 => rfl
  | 1 => rfl
  | 2 => rfl
  | (k + 3) =>
    rw [show type_definition c6_btf (k + 3) 1 = td_loop c6_btf (k + 3) [1] [] "" from rfl]
    rw [td_loop]
    rw [if_neg (by decide)]
    rw [show type_by_id c6_btf 1 =
      RRes.ok (BtfType.struct ⟨"s", true, 8, [⟨"next", 2, 0, 0⟩]⟩) from rfl]
    dsimp only
    rw [c6_process_diverges k]

/-- C6: counterexample. A BTF buffer holding struct s { next : Ptr } where the Ptr
entry points to ITSELF (id 2 -> id 2) decodes successfully, yet `type_definition`
on the struct never terminates: the claim says dependency collection handles cyclic
references (struct -> ptr -> struct) without infinite recursion, but `next_type`
follows Ptr edges with no cycle detection, so a pointer cycle that does not pass
through a terminal type loops forever. -/
theorem c6_pointer_cycle_diverges :
    load c6_type_data c6_str_data = RRes.ok c6_btf.types ∧
    ∀ fuel, type_definition c6_btf fuel 1 = RRes.fuelOut :=
  ⟨rfl, c6_td_diverges⟩
